import Mathlib

/-!
Verification development for the Vizcom browser-automation actor
(`src/my-actor/src/main.py`).  The interaction-resilience core is shallowly
embedded: each Playwright/DOM operation is represented by its observable
outcome (success, exception, query result), exceptions are values of an
`Except` type, and the Python `try/except` structure of the source is
mirrored by explicit handlers in the Lean definitions.
-/

namespace Vizcom

/-- `startsWithChars needle hay` : the character list `needle` is an initial
segment of `hay`. -/
def startsWithChars : List Char → List Char → Bool
  | [], _ => true
  | _ :: _, [] => false
  | a :: as, b :: bs => a == b && startsWithChars as bs

/-- `infixChars needle hay` : the character list `needle` occurs contiguously
inside `hay`. -/
def infixChars (needle : List Char) : List Char → Bool
  | [] => startsWithChars needle []
  | b :: bs => startsWithChars needle (b :: bs) || infixChars needle bs

/-- JS-style substring test: `includes hay needle` models `hay.includes(needle)`
(JavaScript) and `needle in hay` (Python). -/
def includes (hay needle : String) : Bool :=
  infixChars needle.toList hay.toList

/-- Python `str.lower()` / JS `toLowerCase()`, modelled character-wise. -/
def lowerStr (s : String) : String :=
  String.mk (s.toList.map Char.toLower)

/-! ## `retry_click` (main.py lines 207-256)

Each underlying browser operation either returns normally or raises; the
environment `ClickEnv` records, for each of the four techniques, which of the
two happens when the technique is invoked on the element at hand. -/

/-- Outcome of one browser operation: it returns normally or raises. -/
inductive ExcOutcome where
  | ok
  | exc
deriving DecidableEq, Repr

/-- Outcome of `element.bounding_box()`: raises, returns `None`, or returns a box. -/
inductive BBoxOutcome where
  | raised
  | noBox
  | box
deriving DecidableEq, Repr

/-- Outcomes of every operation `retry_click` may perform on the element. -/
structure ClickEnv where
  /-- `element.click()` (attempt 0). -/
  nativeClick : ExcOutcome
  /-- `element.click(force=True)` (attempt 1, wrapped in its own inner try). -/
  forceClick : ExcOutcome
  /-- `element.evaluate("el => el.click()")` (attempt 2). -/
  jsClick : ExcOutcome
  /-- `element.bounding_box()` (attempts >= 3). -/
  bboxResult : BBoxOutcome
  /-- `element.page()` followed by `page.mouse.click(x, y)` (attempts >= 3). -/
  pageMouseClick : ExcOutcome
deriving DecidableEq, Repr

/-- The four activation techniques, in the order the source tries them. -/
inductive Technique where
  | native
  | forcedNative
  | scripted
  | coordinate
deriving DecidableEq, Repr

/-- Which technique the loop body of `retry_click` uses at a given attempt index. -/
def techniqueOf : Nat → Technique
  | 0 => .native
  | 1 => .forcedNative
  | 2 => .scripted
  | _ => .coordinate

/-- Body of one iteration of the `for attempt in range(max_attempts)` loop,
before the outer `except Exception` handler: `.ok (some true)` is `return True`,
`.ok none` is falling through to the next iteration, `.error ()` is an
exception escaping the body (to be caught by the outer handler).
Attempt 1 has its own inner `try/except: pass`, so its failure falls through
rather than raising; attempts 3 and later return nothing when the bounding box
is `None`. -/
def attemptBody (env : ClickEnv) : Nat → Except Unit (Option Bool)
  | 0 =>
    match env.nativeClick with
    | .ok => .ok (some true)
    | .exc => .error ()
  | 1 =>
    match env.forceClick with
    | .ok => .ok (some true)
    | .exc => .ok none
  | 2 =>
    match env.jsClick with
    | .ok => .ok (some true)
    | .exc => .error ()
  | _ + 3 =>
    match env.bboxResult with
    | .raised => .error ()
    | .noBox => .ok none
    | .box =>
      match env.pageMouseClick with
      | .ok => .ok (some true)
      | .exc => .error ()

/-- One iteration of the loop, with the outer `except Exception` handler applied:
an exception inside the body is caught (logged) and the loop continues. -/
def attemptResult (env : ClickEnv) (i : Nat) : Option Bool :=
  match attemptBody env i with
  | .ok r => r
  | .error _ => none

/-- The `for attempt in range(max_attempts)` loop of `retry_click`, starting at
attempt index `i` with `rem` iterations remaining.  Returns the boolean result
together with the list of techniques whose attempt was entered.  The result is
an `Except` so that an uncaught exception could, in principle, escape; the
per-iteration handler is embedded via `attemptResult`. -/
def clickLoop (env : ClickEnv) (i : Nat) : Nat → Except Unit (Bool × List Technique)
  | 0 => .ok (false, [])
  | rem + 1 =>
    match attemptResult env i with
    | some true => .ok (true, [techniqueOf i])
    | _ =>
      match clickLoop env (i + 1) rem with
      | .ok (b, ts) => .ok (b, techniqueOf i :: ts)
      | .error e => .error e

/-- The first argument of `retry_click` is either a live element handle or a
string (selector text), per the `isinstance(element, str)` check. -/
inductive ElementArg where
  | handle
  | strRef
deriving DecidableEq, Repr

/-- Outcome of `page.query_selector(selector)` during re-resolution. -/
inductive QueryOutcome where
  | found
  | notFoundQ
  | raisedQ
deriving DecidableEq, Repr

/-- `retry_click(element, page, selector, max_attempts)` (main.py 207-256).
When `element` is a string and both `page` and `selector` were supplied, the
element is first re-resolved: a `None` result returns `False` at once, and an
exception during re-resolution is caught and also returns `False`; in both
cases no click attempt happens.  Otherwise the four-technique loop runs. -/
def retry_click (arg : ElementArg) (hasPageAndSelector : Bool)
    (query : QueryOutcome) (env : ClickEnv) (maxAttempts : Nat) :
    Except Unit (Bool × List Technique) :=
  match arg with
  | .strRef =>
    if hasPageAndSelector then
      match query with
      | .found => clickLoop env 0 maxAttempts
      | .notFoundQ => .ok (false, [])
      | .raisedQ => .ok (false, [])
    else
      clickLoop env 0 maxAttempts
  | .handle => clickLoop env 0 maxAttempts

/-- The loop never produces an error value: every body exception is caught by
the per-iteration handler. -/
theorem clickLoop_ok (env : ClickEnv) (i : Nat) :
    ∀ rem : Nat, ∃ b ts, clickLoop env i rem = .ok (b, ts) := by
  intro rem
  induction rem generalizing i with
  | zero => exact ⟨false, [], rfl⟩
  | succ n ih =>
    obtain ⟨b, ts, h⟩ := ih (i + 1)
    cases hr : attemptResult env i with
    | none => exact ⟨b, techniqueOf i :: ts, by simp [clickLoop, hr, h]⟩
    | some v =>
      cases v with
      | true => exact ⟨true, [techniqueOf i], by simp [clickLoop, hr]⟩
      | false => exact ⟨b, techniqueOf i :: ts, by simp [clickLoop, hr, h]⟩

/-- The loop result is `true` exactly when some attempt index below the budget
returns `True` in the source. -/
theorem clickLoop_true_iff (env : ClickEnv) (i : Nat) :
    ∀ (rem : Nat) (b : Bool) (ts : List Technique),
      clickLoop env i rem = .ok (b, ts) →
      (b = true ↔ ∃ k, k < rem ∧ attemptResult env (i + k) = some true) := by
  intro rem
  induction rem generalizing i with
  | zero =>
    intro b ts h
    simp only [clickLoop, Except.ok.injEq, Prod.mk.injEq] at h
    constructor
    · intro hb; rw [← h.1] at hb; cases hb
    · rintro ⟨k, hk, _⟩; omega
  | succ n ih =>
    intro b ts h
    cases hr : attemptResult env i with
    | some v =>
      cases v with
      | true =>
        simp only [clickLoop, hr, Except.ok.injEq, Prod.mk.injEq] at h
        constructor
        · intro _; exact ⟨0, Nat.succ_pos n, by simpa using hr⟩
        · intro _; exact h.1.symm
      | false =>
        simp only [clickLoop, hr] at h
        cases hrec : clickLoop env (i + 1) n with
        | error e => rw [hrec] at h; cases h
        | ok p =>
          rw [hrec] at h
          obtain ⟨b', ts'⟩ := p
          simp only [Except.ok.injEq, Prod.mk.injEq] at h
          have := ih (i + 1) b' ts' hrec
          constructor
          · intro hb
            rw [← h.1] at hb
            obtain ⟨k, hk, hs⟩ := this.mp hb
            exact ⟨k + 1, by omega, by simpa [Nat.add_comm, Nat.add_left_comm] using hs⟩
          · rintro ⟨k, hk, hs⟩
            cases k with
            | zero => simp at hs; rw [hs] at hr; cases hr
            | succ m =>
              rw [← h.1]
              refine this.mpr ⟨m, by omega, ?_⟩
              have : i + (m + 1) = i + 1 + m := by omega
              rwa [this] at hs
    | none =>
      simp only [clickLoop, hr] at h
      cases hrec : clickLoop env (i + 1) n with
      | error e => rw [hrec] at h; cases h
      | ok p =>
        rw [hrec] at h
        obtain ⟨b', ts'⟩ := p
        simp only [Except.ok.injEq, Prod.mk.injEq] at h
        have := ih (i + 1) b' ts' hrec
        constructor
        · intro hb
          rw [← h.1] at hb
          obtain ⟨k, hk, hs⟩ := this.mp hb
          exact ⟨k + 1, by omega, by simpa [Nat.add_comm, Nat.add_left_comm] using hs⟩
        · rintro ⟨k, hk, hs⟩
          cases k with
          | zero => simp at hs; rw [hs] at hr; cases hr
          | succ m =>
            rw [← h.1]
            refine this.mpr ⟨m, by omega, ?_⟩
            have : i + (m + 1) = i + 1 + m := by omega
            rwa [this] at hs

/-- C4: activation tries native, forced-native, scripted, coordinate in that
fixed order and short-circuits on the first success: when the native and
forced-native clicks fail and the scripted click succeeds, `retry_click`
returns `True` with exactly the three attempts native, forced-native,
scripted, and the coordinate technique is never invoked — whatever the
bounding-box and mouse operations would have done. -/
theorem c4_activation_order (bb : BBoxOutcome) (pm : ExcOutcome)
    (hps : Bool) (q : QueryOutcome) :
    retry_click .handle hps q ⟨.exc, .exc, .ok, bb, pm⟩ 4 =
      .ok (true, [.native, .forcedNative, .scripted]) ∧
    Technique.coordinate ∉ [Technique.native, .forcedNative, .scripted] :=
  ⟨rfl, by decide⟩

/-- C5: for every element argument and every behaviour of the underlying
click operations, `retry_click` never lets an exception escape — it always
returns a boolean — and that boolean is `True` exactly when some attempt
within the budget succeeded, `False` when all of them failed. -/
theorem c5_never_raises :
    (∀ (arg : ElementArg) (hps : Bool) (q : QueryOutcome) (env : ClickEnv)
        (maxAttempts : Nat),
        ∃ b ts, retry_click arg hps q env maxAttempts = .ok (b, ts)) ∧
    (∀ (env : ClickEnv) (maxAttempts : Nat) (b : Bool) (ts : List Technique),
        clickLoop env 0 maxAttempts = .ok (b, ts) →
        (b = true ↔ ∃ i, i < maxAttempts ∧ attemptResult env i = some true)) := by
  constructor
  · intro arg hps q env maxAttempts
    cases arg with
    | handle => exact clickLoop_ok env 0 maxAttempts
    | strRef =>
      cases hps with
      | false => exact clickLoop_ok env 0 maxAttempts
      | true =>
        cases q with
        | found => exact clickLoop_ok env 0 maxAttempts
        | notFoundQ => exact ⟨false, [], rfl⟩
        | raisedQ => exact ⟨false, [], rfl⟩
  · intro env maxAttempts b ts h
    have := clickLoop_true_iff env 0 maxAttempts b ts h
    simpa using this

/-- Witness for C5 at a concrete environment in which every technique fails. -/
theorem c5_never_raises_witness :
    (∃ b ts,
        retry_click .handle true .found ⟨.exc, .exc, .exc, .noBox, .ok⟩ 4 = .ok (b, ts)) ∧
    (false = true ↔
        ∃ i, i < 4 ∧ attemptResult ⟨.exc, .exc, .exc, .noBox, .ok⟩ i = some true) :=
  ⟨c5_never_raises.1 .handle true .found ⟨.exc, .exc, .exc, .noBox, .ok⟩ 4,
   c5_never_raises.2 ⟨.exc, .exc, .exc, .noBox, .ok⟩ 4 false
     [.native, .forcedNative, .scripted, .coordinate] rfl⟩

/-- C10: when `retry_click` receives a string together with a page and a
selector, it first re-resolves the element; if the re-resolution returns no
element or itself raises, the function returns `False` at once, without
raising and without entering any click attempt. -/
theorem c10_string_reresolution (env : ClickEnv) (maxAttempts : Nat) :
    retry_click .strRef true .notFoundQ env maxAttempts = .ok (false, []) ∧
    retry_click .strRef true .raisedQ env maxAttempts = .ok (false, []) :=
  ⟨rfl, rfl⟩

/-! ## The step sequencer of `perform_button_sequence` (main.py lines 296-941)

Every iteration of the `for button_info in buttons_to_click` loop is wrapped
in `try: ... except Exception:`; there is no `break` and no `return` inside
the loop, so a Python `Exception` raised by a step body is caught and the
loop advances, while only a `BaseException`-level fault (the browser session
being torn down, task cancellation) escapes the handler and aborts the
sequence. -/

/-- Observable outcome of executing one step's body. -/
inductive StepOutcome where
  /-- The body completed normally. -/
  | okStep
  /-- An internal failure handled with `continue` (button not found, all
  click attempts failed, a sub-action skipped). -/
  | skip
  /-- The body raised an `Exception`, caught by the per-step handler. -/
  | raiseExc
  /-- The body raised a `BaseException`-level transport fault (session
  unusable / cancelled), which the `except Exception` clause does not catch. -/
  | raiseFatal
deriving DecidableEq, Repr

/-- The sequencing loop from step index `i`: returns the indices of the steps
that were executed (in order), or `.error j` when the step at index `j`
aborted the whole sequence with a fatal fault. -/
def runSeqFrom (i : Nat) : List StepOutcome → Except Nat (List Nat)
  | [] => .ok []
  | o :: rest =>
    match o with
    | .raiseFatal => .error i
    | _ =>
      match runSeqFrom (i + 1) rest with
      | .ok l => .ok (i :: l)
      | .error j => .error j

/-- The whole sequencing loop of `perform_button_sequence`, abstracted over
the outcome of each step body. -/
def perform_button_sequence_run (outs : List StepOutcome) : Except Nat (List Nat) :=
  runSeqFrom 0 outs

theorem runSeqFrom_ok (outs : List StepOutcome) :
    ∀ i, (∀ o ∈ outs, o ≠ .raiseFatal) →
      runSeqFrom i outs = .ok (List.range' i outs.length) := by
  induction outs with
  | nil => intro i _; rfl
  | cons o rest ih =>
    intro i h
    have ho : o ≠ .raiseFatal := h o (List.mem_cons_self o rest)
    have hrest : ∀ x ∈ rest, x ≠ StepOutcome.raiseFatal :=
      fun x hx => h x (List.mem_cons_of_mem o hx)
    have hr := ih (i + 1) hrest
    cases o with
    | raiseFatal => exact absurd rfl ho
    | okStep => simp [runSeqFrom, hr, List.range'_succ]
    | skip => simp [runSeqFrom, hr, List.range'_succ]
    | raiseExc => simp [runSeqFrom, hr, List.range'_succ]

theorem runSeqFrom_error (outs : List StepOutcome) :
    ∀ i j, runSeqFrom i outs = .error j →
      ∃ k, k < outs.length ∧ i + k = j ∧ outs.get? k = some .raiseFatal := by
  induction outs with
  | nil => intro i j h; cases h
  | cons o rest ih =>
    intro i j h
    cases ho : o with
    | raiseFatal =>
      rw [ho] at h
      simp only [runSeqFrom] at h
      cases h
      exact ⟨0, by simp, by omega, by simp⟩
    | okStep =>
      rw [ho] at h
      simp only [runSeqFrom] at h
      cases hr : runSeqFrom (i + 1) rest with
      | ok l => rw [hr] at h; cases h
      | error j2 =>
        rw [hr] at h
        cases h
        obtain ⟨k, hk, hik, hget⟩ := ih (i + 1) _ hr
        exact ⟨k + 1, by simpa using Nat.succ_lt_succ hk, by omega, by simpa using hget⟩
    | skip =>
      rw [ho] at h
      simp only [runSeqFrom] at h
      cases hr : runSeqFrom (i + 1) rest with
      | ok l => rw [hr] at h; cases h
      | error j2 =>
        rw [hr] at h
        cases h
        obtain ⟨k, hk, hik, hget⟩ := ih (i + 1) _ hr
        exact ⟨k + 1, by simpa using Nat.succ_lt_succ hk, by omega, by simpa using hget⟩
    | raiseExc =>
      rw [ho] at h
      simp only [runSeqFrom] at h
      cases hr : runSeqFrom (i + 1) rest with
      | ok l => rw [hr] at h; cases h
      | error j2 =>
        rw [hr] at h
        cases h
        obtain ⟨k, hk, hik, hget⟩ := ih (i + 1) _ hr
        exact ⟨k + 1, by simpa using Nat.succ_lt_succ hk, by omega, by simpa using hget⟩

/-- C2: the sequencer advances past every step regardless of that step's
internal success, skip, or caught exception — when no step raises a
fatal transport fault, every step in the compiled list is executed, in
order, and the loop returns normally; and an early (aborted) termination
can only come from a step whose body produced a fatal
(`BaseException`-level) transport fault of the session itself. -/
theorem c2_sequencer_advances :
    (∀ outs : List StepOutcome, (∀ o ∈ outs, o ≠ .raiseFatal) →
        perform_button_sequence_run outs = .ok (List.range outs.length)) ∧
    (∀ (outs : List StepOutcome) (j : Nat),
        perform_button_sequence_run outs = .error j →
        outs.get? j = some .raiseFatal) := by
  constructor
  · intro outs h
    rw [perform_button_sequence_run, runSeqFrom_ok outs 0 h, List.range_eq_range']
  · intro outs j h
    obtain ⟨k, _, hik, hget⟩ := runSeqFrom_error outs 0 j h
    have : k = j := by omega
    rwa [this] at hget

/-- Witness for C2: a step list whose middle step always fails is still
executed to the end, and a list with a fatal second step aborts exactly
there. -/
theorem c2_sequencer_advances_witness :
    perform_button_sequence_run [.skip, .raiseExc, .okStep] = .ok (List.range 3) ∧
    [StepOutcome.okStep, .raiseFatal].get? 1 = some .raiseFatal :=
  ⟨c2_sequencer_advances.1 [.skip, .raiseExc, .okStep] (by decide),
   c2_sequencer_advances.2 [.okStep, .raiseFatal] 1 rfl⟩

/-! ## The compiled step list (main.py lines 278-294)

`perform_button_sequence` builds `buttons_to_click` once, before the
sequencing loop, from the single runtime branch on `prompt_text`. -/

/-- One entry of `buttons_to_click`. -/
structure Step where
  text : String
  delay : Nat
  maximizeAfter : Bool
deriving DecidableEq, Repr

/-- Python truthiness of the optional `prompt_text` argument (`if prompt_text:`):
`None` and the empty string are falsy. -/
def promptTruthy : Option String → Bool
  | none => false
  | some s => !(s == "")

/-- The step list literal of `perform_button_sequence` (main.py 280-294). -/
def buttons_to_click (promptText : Option String) : List Step :=
  if promptTruthy promptText then
    [⟨"New file", 4000, false⟩, ⟨"Start in Studio", 4000, true⟩,
     ⟨"Upload an image", 4000, false⟩, ⟨"prompt_generate", 3000, false⟩,
     ⟨"options_button", 6000, false⟩]
  else
    [⟨"New file", 4000, false⟩, ⟨"Start in Studio", 4000, true⟩,
     ⟨"Upload an image", 4000, false⟩, ⟨"options_button", 6000, false⟩]

/-- C6 counterexample: in a run with a prompt supplied, the compiled step list
contains BOTH the upload-image step and the prompt-generate step, so the two
are not mutually exclusive variants. -/
theorem c6_counterexample :
    ((buttons_to_click (some "a red chair")).any fun s => s.text == "Upload an image") = true ∧
    ((buttons_to_click (some "a red chair")).any fun s => s.text == "prompt_generate") = true := by
  exact ⟨by decide, by decide⟩

/-- C6 (amended): the upload-image step is present in every run; the
prompt-generate step is additionally present exactly when a truthy prompt is
supplied, the branch being fixed before the sequencer starts. -/
theorem c6_amended_step_variants (p : Option String) :
    ((buttons_to_click p).any fun s => s.text == "Upload an image") = true ∧
    ((buttons_to_click p).any fun s => s.text == "prompt_generate") = promptTruthy p := by
  cases hp : promptTruthy p with
  | false => simp only [buttons_to_click, hp, if_false]; exact ⟨by decide, by decide⟩
  | true => simp only [buttons_to_click, hp, if_true]; exact ⟨by decide, by decide⟩

/-! ## The export retry loop `_export_layer_as_glb` (main.py lines 1020-1207)

The loop `for attempt in range(1, max_attempts + 1)` classifies each attempt
by where it stopped; every stopping point other than a captured download ends
with `continue` (after a fixed `wait_for_timeout` backoff where the source has
one), and a caught exception in the attempt body also falls through to the
next attempt. -/

/-- Where one export attempt stopped. -/
inductive ExportAttemptOutcome where
  /-- `_try_get_ready_row` returned no row: the ready row could not be
  re-resolved (row not ready); sleeps 5000 ms and consumes the attempt. -/
  | notReady
  /-- The readiness check itself raised; sleeps 5000 ms. -/
  | readyCheckError
  /-- The three-dot button was not found; sleeps 2000 ms. -/
  | dotsNotFound
  /-- The GLB option never appeared; sleeps 5000 ms. -/
  | glbNotFound
  /-- The download was not captured; sleeps 5000 ms. -/
  | downloadFailed
  /-- The attempt body raised an `Exception`, caught by the outer handler. -/
  | bodyError
  /-- The download was captured and saved: the function returns. -/
  | success
deriving DecidableEq, Repr

/-- Fixed backoff the source sleeps before moving past an attempt with the
given outcome. -/
def backoffMs : ExportAttemptOutcome → Option Nat
  | .notReady => some 5000
  | .readyCheckError => some 5000
  | .dotsNotFound => some 2000
  | .glbNotFound => some 5000
  | .downloadFailed => some 5000
  | .bodyError => none
  | .success => none

/-- Result of running the export retry loop. -/
structure ExportRun where
  /-- `result_data` carries `exported_glb_path` on return. -/
  exported : Bool
  /-- How many loop iterations ran. -/
  attemptsUsed : Nat
  /-- The backoff sleeps performed, in order. -/
  backoffs : List Nat
deriving DecidableEq, Repr

/-- The export loop from attempt number `attempt` with `rem` attempts left in
the budget. -/
def exportLoopFrom (beh : Nat → ExportAttemptOutcome) (attempt : Nat) :
    Nat → ExportRun
  | 0 => ⟨false, 0, []⟩
  | rem + 1 =>
    match beh attempt with
    | .success => ⟨true, 1, []⟩
    | o =>
      let r := exportLoopFrom beh (attempt + 1) rem
      ⟨r.exported, r.attemptsUsed + 1, (backoffMs o).toList ++ r.backoffs⟩

/-- `_export_layer_as_glb(page, layer_el, max_attempts)`: attempts are numbered
from 1, as in `range(1, max_attempts + 1)`. -/
def export_layer_as_glb (beh : Nat → ExportAttemptOutcome) (maxAttempts : Nat) :
    ExportRun :=
  exportLoopFrom beh 1 maxAttempts

/-- A target that reports not-ready for the first five attempts and succeeds
on the sixth. -/
def behReadyAtSix : Nat → ExportAttemptOutcome :=
  fun i => if i ≤ 5 then .notReady else .success

/-- A target that never becomes ready. -/
def behNeverReady : Nat → ExportAttemptOutcome :=
  fun _ => .notReady

theorem exportLoopFrom_le (beh : Nat → ExportAttemptOutcome) :
    ∀ rem attempt, (exportLoopFrom beh attempt rem).attemptsUsed ≤ rem := by
  intro rem
  induction rem with
  | zero => intro a; exact Nat.le_refl 0
  | succ n ih =>
    intro a
    cases h : beh a <;> simp only [exportLoopFrom, h] <;>
      first
      | exact Nat.succ_le_succ (Nat.zero_le n)
      | exact Nat.succ_le_succ (ih (a + 1))

/-- C1: the export retry loop performs at most `maxAttempts` attempts in
total; a not-ready attempt sleeps the fixed 5000 ms backoff and still consumes
one attempt.  With a target not ready for the first 5 attempts and succeeding
on the 6th, `maxAttempts = 10` returns success having consumed exactly 6
attempts (and slept the 5000 ms backoff five times); with a target that never
becomes ready, `maxAttempts = 3` returns exhausted — no exported path — after
exactly 3 attempts, without raising. -/
theorem c1_export_attempt_budget :
    (∀ (beh : Nat → ExportAttemptOutcome) (maxAttempts : Nat),
        (export_layer_as_glb beh maxAttempts).attemptsUsed ≤ maxAttempts) ∧
    export_layer_as_glb behReadyAtSix 10 =
      ⟨true, 6, [5000, 5000, 5000, 5000, 5000]⟩ ∧
    export_layer_as_glb behNeverReady 3 = ⟨false, 3, [5000, 5000, 5000]⟩ :=
  ⟨fun beh maxAttempts => exportLoopFrom_le beh maxAttempts 1, by decide, by decide⟩

/-! ## Readiness predicates (main.py lines 992-1018 and 1026-1058)

`_wait_until_layer_ready` polls a JS predicate over the target row;
`_layer_ready_and_row` re-evaluates readiness over all rows and returns the
current ready row.  A `LayerRow` records what those scripts can observe of
one row of the artifact list. -/

/-- Observable state of one row of the layer list. -/
structure LayerRow where
  /-- `row.innerText` (raw, not lowercased). -/
  innerText : String
  /-- A spinner (`svg[style*="animation"], svg.animate-spin`) is inside the row. -/
  hasSpinner : Bool
  /-- The mesh icon is inside the row. -/
  hasMeshIcon : Bool
  /-- The check-mark icon is inside the row. -/
  hasCheck : Bool
deriving DecidableEq, Repr

/-- The `- 3d` / ` 3d` label test applied to an already-lowercased text. -/
def has3dLabel (txtLower : String) : Bool :=
  includes txtLower "- 3d" || includes txtLower " 3d"

/-- The polling predicate of `_wait_until_layer_ready` (main.py 996-1011):
false while the global `Loading 3D model` banner is in the page body, false
while a spinner is inside the row, and otherwise true exactly when the row
has the 3-D label and a mesh icon or check mark. -/
def layerReadyPred (bodyText : String) (row : LayerRow) : Bool :=
  if includes bodyText "Loading 3D model" then false
  else if row.hasSpinner then false
  else has3dLabel (lowerStr row.innerText) && (row.hasMeshIcon || row.hasCheck)

/-- `wait_for_function` polling from tick `t` with `fuel` ticks before the
deadline: resolves at the first tick whose DOM state satisfies the predicate. -/
def waitReadyFrom (trace : Nat → String × LayerRow) (t : Nat) : Nat → Option Nat
  | 0 => none
  | fuel + 1 =>
    if layerReadyPred (trace t).1 (trace t).2 then some t
    else waitReadyFrom trace (t + 1) fuel

/-- `_wait_until_layer_ready` as a bounded wait over a DOM-state trace. -/
def wait_until_layer_ready (trace : Nat → String × LayerRow) (fuel : Nat) :
    Option Nat :=
  waitReadyFrom trace 0 fuel

/-- Per-row readiness test of `_layer_ready_and_row` (main.py 1036-1054). -/
def rowReadyIgnoringBanner (row : LayerRow) : Bool :=
  has3dLabel (lowerStr row.innerText) && !row.hasSpinner &&
    (row.hasMeshIcon || row.hasCheck)

/-- `_layer_ready_and_row` (main.py 1026-1058): `none` while the loading
banner shows, otherwise the first ready row. -/
def layer_ready_and_row (bodyText : String) (rows : List LayerRow) :
    Option LayerRow :=
  if includes bodyText "Loading 3D model" then none
  else rows.find? rowReadyIgnoringBanner

theorem layerReadyPred_spinner (bodyText : String) (row : LayerRow)
    (h : row.hasSpinner = true) : layerReadyPred bodyText row = false := by
  simp [layerReadyPred, h]

theorem layerReadyPred_banner (bodyText : String) (row : LayerRow)
    (h : includes bodyText "Loading 3D model" = true) :
    layerReadyPred bodyText row = false := by
  simp [layerReadyPred, h]

theorem waitReadyFrom_none (trace : Nat → String × LayerRow)
    (hall : ∀ t, (trace t).2.hasSpinner = true ∨
      includes (trace t).1 "Loading 3D model" = true) :
    ∀ fuel t, waitReadyFrom trace t fuel = none := by
  intro fuel
  induction fuel with
  | zero => intro t; rfl
  | succ n ih =>
    intro t
    have hfalse : layerReadyPred (trace t).1 (trace t).2 = false := by
      cases hall t with
      | inl h => exact layerReadyPred_spinner _ _ h
      | inr h => exact layerReadyPred_banner _ _ h
    simp [waitReadyFrom, hfalse, ih]

/-- C3: the artifact-ready predicate is never true while a spinner is in the
target row — even if the mesh icon or check mark is simultaneously present —
and never true while the `Loading 3D model` banner is anywhere in the page
body, whatever the row shows; `_layer_ready_and_row` likewise returns no row
while the banner shows and never returns a row holding a spinner; and the
readiness wait does not resolve on any trace all of whose states have a
spinner or the banner. -/
theorem c3_ready_excludes_spinner_and_banner :
    (∀ (bodyText : String) (row : LayerRow), row.hasSpinner = true →
        layerReadyPred bodyText row = false) ∧
    (∀ (bodyText : String) (row : LayerRow),
        includes bodyText "Loading 3D model" = true →
        layerReadyPred bodyText row = false) ∧
    (∀ (bodyText : String) (rows : List LayerRow),
        includes bodyText "Loading 3D model" = true →
        layer_ready_and_row bodyText rows = none) ∧
    (∀ (bodyText : String) (rows : List LayerRow) (row : LayerRow),
        layer_ready_and_row bodyText rows = some row → row.hasSpinner = false) ∧
    (∀ (trace : Nat → String × LayerRow) (fuel : Nat),
        (∀ t, (trace t).2.hasSpinner = true ∨
          includes (trace t).1 "Loading 3D model" = true) →
        wait_until_layer_ready trace fuel = none) := by
  refine ⟨layerReadyPred_spinner, layerReadyPred_banner, ?_, ?_, ?_⟩
  · intro bodyText rows h
    simp [layer_ready_and_row, h]
  · intro bodyText rows row h
    rw [layer_ready_and_row] at h
    split at h
    · cases h
    · have hp := List.find?_some h
      rw [rowReadyIgnoringBanner] at hp
      simp only [Bool.and_eq_true, Bool.not_eq_true'] at hp
      exact hp.1.2
  · intro trace fuel hall
    exact waitReadyFrom_none trace hall fuel 0

/-- Witness for C3: a row with spinner and both ready icons is not ready; a
page showing the loading banner is not ready even for a spinner-free ready
row; and the wait times out on a trace that always shows the banner. -/
theorem c3_ready_excludes_witness :
    layerReadyPred "all quiet" ⟨"chair - 3d", true, true, true⟩ = false ∧
    layerReadyPred "now Loading 3D model for you"
      ⟨"chair - 3d", false, true, true⟩ = false ∧
    wait_until_layer_ready
      (fun _ => ("Loading 3D model", ⟨"chair - 3d", false, true, true⟩)) 4 = none :=
  ⟨c3_ready_excludes_spinner_and_banner.1 "all quiet" ⟨"chair - 3d", true, true, true⟩ rfl,
   c3_ready_excludes_spinner_and_banner.2.1 "now Loading 3D model for you"
     ⟨"chair - 3d", false, true, true⟩ (by decide),
   c3_ready_excludes_spinner_and_banner.2.2.2.2
     (fun _ => ("Loading 3D model", ⟨"chair - 3d", false, true, true⟩)) 4
     (fun _ => Or.inr
       (show includes "Loading 3D model" "Loading 3D model" = true by decide))⟩

/-! ## "Start in Studio" resolution (main.py lines 326-459)

The resolver collects the stripped, non-empty texts of the text-bearing
elements (`texts`), then tries: exact equality with `"Start in Studio"`,
containment with a 30-character length ceiling, and finally the raw
JavaScript fallback. -/

/-- Which strategy produced the resolution. -/
inductive ResolveOutcome where
  | exact (t : String)
  | contain (t : String)
  | script
deriving DecidableEq, Repr

/-- The three-tier "Start in Studio" resolution over the page's text elements
(main.py 350-374): the first exact-text match, else the first short
containment match, else the script fallback. -/
def resolve_start_in_studio (texts : List String) : ResolveOutcome :=
  match texts.find? (fun t => t == "Start in Studio") with
  | some t => .exact t
  | none =>
    match texts.find?
        (fun t => includes t "Start in Studio" && decide (t.length < 30)) with
    | some t => .contain t
    | none => .script

/-- C7: resolution tries the strategies in fixed priority order and returns
the first strategy's match: a DOM that has an exact-text match resolves to it
(even when lower-priority matches exist); a containment match is accepted
only when the candidate's text is under 30 characters and no exact match
exists; and the script heuristics are consulted only when both text
strategies fail. -/
theorem c7_resolution_priority :
    (∀ texts : List String, "Start in Studio" ∈ texts →
        resolve_start_in_studio texts = .exact "Start in Studio") ∧
    (∀ (texts : List String) (t : String),
        resolve_start_in_studio texts = .contain t →
        includes t "Start in Studio" = true ∧ t.length < 30 ∧
          "Start in Studio" ∉ texts) ∧
    (∀ texts : List String, resolve_start_in_studio texts = .script →
        "Start in Studio" ∉ texts ∧
        ∀ t ∈ texts, ¬(includes t "Start in Studio" = true ∧ t.length < 30)) := by
  refine ⟨?_, ?_, ?_⟩
  · intro texts hmem
    rw [resolve_start_in_studio]
    cases hf : texts.find? (fun t => t == "Start in Studio") with
    | none =>
      rw [List.find?_eq_none] at hf
      exact absurd (by simp) (hf _ hmem)
    | some a =>
      have := List.find?_some hf
      rw [beq_iff_eq] at this
      rw [this]
  · intro texts t h
    rw [resolve_start_in_studio] at h
    cases hf : texts.find? (fun t => t == "Start in Studio") with
    | some a => rw [hf] at h; cases h
    | none =>
      rw [hf] at h
      have hnomem : "Start in Studio" ∉ texts := by
        rw [List.find?_eq_none] at hf
        intro hmem
        exact absurd (by simp) (hf _ hmem)
      cases hg : texts.find?
          (fun t => includes t "Start in Studio" && decide (t.length < 30)) with
      | none => rw [hg] at h; cases h
      | some a =>
        rw [hg] at h
        cases h
        have hp := List.find?_some hg
        simp only [Bool.and_eq_true, decide_eq_true_eq] at hp
        exact ⟨hp.1, hp.2, hnomem⟩
  · intro texts h
    rw [resolve_start_in_studio] at h
    cases hf : texts.find? (fun t => t == "Start in Studio") with
    | some a => rw [hf] at h; cases h
    | none =>
      rw [hf] at h
      cases hg : texts.find?
          (fun t => includes t "Start in Studio" && decide (t.length < 30)) with
      | some a => rw [hg] at h; cases h
      | none =>
        constructor
        · rw [List.find?_eq_none] at hf
          intro hmem
          exact absurd (by simp) (hf _ hmem)
        · rw [List.find?_eq_none] at hg
          intro t hmem hc
          have := hg t hmem
          simp only [Bool.and_eq_true, decide_eq_true_eq, not_and] at this
          exact this hc.1 hc.2

/-- Witness for C7: a DOM carrying both a long composite containment match
and an exact-text match resolves to the exact match. -/
theorem c7_resolution_priority_witness :
    resolve_start_in_studio
      ["Projects overview card offering Start in Studio among other actions",
       "Start in Studio"] = .exact "Start in Studio" :=
  c7_resolution_priority.1 _ (by simp)

/-! ## `_wait_for_new_layer` (main.py lines 944-990)

The polling predicate runs in the page (`wait_for_function`); after it
resolves, the Python side re-queries the rows and picks the returned row.
Rows are modelled by their `innerText`. -/

/-- Per-row difference test of the polling predicate (main.py 957-961),
applied to the lowercased filename and row text: the row carries a 3-D
marker or its text does NOT CONTAIN the original filename. -/
def rowDiffersJS (nameLower rowTextLower : String) : Bool :=
  includes rowTextLower "- 3d" || includes rowTextLower " 3d" ||
    !(includes rowTextLower nameLower)

/-- The `New-artifact-appeared` polling predicate (main.py 952-968): at least
two rows exist and some row passes `rowDiffersJS`. -/
def newLayerPred (rows : List String) (originalFilename : String) : Bool :=
  decide (2 ≤ rows.length) &&
    rows.any fun r => rowDiffersJS (lowerStr originalFilename) (lowerStr r)

/-- Row selection after the wait resolves (main.py 970-987): the first row
with a 3-D marker, else the first row not containing the original filename. -/
def pick_new_layer (rows : List String) (originalFilename : String) :
    Option String :=
  match rows.find? (fun r => includes (lowerStr r) "- 3d" || includes (lowerStr r) " 3d") with
  | some r => some r
  | none => rows.find? fun r => !(includes (lowerStr r) (lowerStr originalFilename))

/-- Modelled from the spec words of C8, for comparison with `newLayerPred`:
"at least one row's label differs from the original-source label (by
containing a 3-D marker or by LEXICAL INEQUALITY with the known original
filename)". -/
def specNewLayerPred (rows : List String) (originalFilename : String) : Bool :=
  decide (2 ≤ rows.length) &&
    rows.any fun r =>
      includes (lowerStr r) "- 3d" || includes (lowerStr r) " 3d" ||
        decide (r ≠ originalFilename)

/-- C8 counterexample: with rows `sample.png` and `sample.png (2)` the second
label is lexically unequal to the original filename (so the claim's predicate
holds), but the code's predicate is false, because the code tests
non-containment of the filename, not inequality. -/
theorem c8_counterexample :
    newLayerPred ["sample.png", "sample.png (2)"] "sample.png" = false ∧
    specNewLayerPred ["sample.png", "sample.png (2)"] "sample.png" = true :=
  ⟨by decide, by decide⟩

theorem pick_new_layer_differs (rows : List String) (orig : String)
    (h : newLayerPred rows orig = true) :
    ∃ r, pick_new_layer rows orig = some r ∧
      rowDiffersJS (lowerStr orig) (lowerStr r) = true := by
  rw [newLayerPred, Bool.and_eq_true, List.any_eq_true] at h
  obtain ⟨-, w, hwmem, hw⟩ := h
  rw [pick_new_layer]
  cases hf : rows.find? (fun r => includes (lowerStr r) "- 3d" || includes (lowerStr r) " 3d") with
  | some a =>
    refine ⟨a, rfl, ?_⟩
    have := List.find?_some hf
    rw [rowDiffersJS]
    rw [Bool.or_eq_true] at this ⊢
    rw [Bool.or_eq_true]
    exact Or.inl this
  | none =>
    rw [List.find?_eq_none] at hf
    have hwmark := hf w hwmem
    rw [rowDiffersJS] at hw
    simp only [Bool.or_eq_true, Bool.not_eq_true'] at hw hwmark
    push_neg at hwmark
    have hwnc : includes (lowerStr w) (lowerStr orig) = false := by
      rcases hw with (h1 | h2) | h3
      · exact absurd h1 (by simpa using hwmark.1)
      · exact absurd h2 (by simpa using hwmark.2)
      · exact h3
    have hex : ∃ r ∈ rows, (!(includes (lowerStr r) (lowerStr orig))) = true :=
      ⟨w, hwmem, by rw [hwnc]; rfl⟩
    rw [← List.find?_isSome] at hex
    cases hg : rows.find? (fun r => !(includes (lowerStr r) (lowerStr orig))) with
    | none => rw [hg] at hex; cases hex
    | some a =>
      refine ⟨a, rfl, ?_⟩
      have := List.find?_some hg
      rw [Bool.not_eq_true'] at this
      rw [rowDiffersJS, this]
      simp

/-- C8 (amended): the New-artifact-appeared predicate holds iff at least two
rows exist and some row's label contains a 3-D marker or does NOT CONTAIN the
original filename (case-insensitively) — non-containment, not lexical
inequality — and when the predicate holds the selection returns a row whose
label satisfies that same difference condition. -/
theorem c8_amended_new_layer :
    (∀ (rows : List String) (orig : String),
        newLayerPred rows orig = true ↔
          2 ≤ rows.length ∧
            ∃ r ∈ rows, rowDiffersJS (lowerStr orig) (lowerStr r) = true) ∧
    (∀ (rows : List String) (orig : String), newLayerPred rows orig = true →
        ∃ r, pick_new_layer rows orig = some r ∧
          rowDiffersJS (lowerStr orig) (lowerStr r) = true) := by
  constructor
  · intro rows orig
    rw [newLayerPred, Bool.and_eq_true, List.any_eq_true, decide_eq_true_eq]
  · exact pick_new_layer_differs

/-- Witness for C8 (amended): with the original `sample.png` row and a
`chair - 3d` row, the predicate holds and the selection returns the 3-D row. -/
theorem c8_amended_new_layer_witness :
    newLayerPred ["sample.png", "chair - 3d"] "sample.png" = true ∧
    (∃ r, pick_new_layer ["sample.png", "chair - 3d"] "sample.png" = some r ∧
      rowDiffersJS (lowerStr "sample.png") (lowerStr r) = true) :=
  ⟨by decide, c8_amended_new_layer.2 ["sample.png", "chair - 3d"] "sample.png" (by decide)⟩

/-! ## Side effects of the "Start in Studio" resolution fallback
(main.py lines 372-459) and the options-menu visibility helper
(main.py lines 653-669)

When both text strategies fail, the resolver runs two `page.evaluate`
scripts.  The first (374-419) clicks the exact-text element, or falls back to
the first card (whose inner lookup uses the invalid CSS selector
`*:contains(...)`, which throws before any click in that branch), or clicks a
control next to an image.  The second (429-451) always dispatches a synthetic
mouse event plus a deferred `.click()` on the first element whose text
contains `Studio`, when one exists.  The options step later forces the
dropdown visible by assigning five style properties (655-666). -/

/-- Structural facts about the page that the fallback scripts query. -/
structure StudioDom where
  /-- An `a`, `button` or `div[role="button"]` whose trimmed text is exactly
  `Start in Studio` exists. -/
  hasExactClickable : Bool
  /-- Some `.card`-like element exists. -/
  hasCard : Bool
  /-- Some `img` whose parent holds a button-like sibling exists. -/
  hasImageWithButton : Bool
  /-- Some element's text contains `Studio`. -/
  hasStudioTextEl : Bool
deriving DecidableEq, Repr

/-- A DOM-mutating action performed by the resolver. -/
inductive Effect where
  | clickEl (target : String)
  | dispatchEvent (target : String)
  | styleMutation (target : String)
deriving DecidableEq, Repr

/-- Effects of the first fallback script (main.py 374-419), together with
whether the script threw: the card branch evaluates the invalid selector
`*:contains("Start in Studio")` and therefore throws before clicking. -/
def studioJsClickEffects (dom : StudioDom) : List Effect × Bool :=
  if dom.hasExactClickable then ([.clickEl "exact Start in Studio element"], false)
  else if dom.hasCard then ([], true)
  else if dom.hasImageWithButton then ([.clickEl "button near image"], false)
  else ([], false)

/-- Effects of the second fallback script (main.py 429-451). -/
def studioDispatchEffects (dom : StudioDom) : List Effect :=
  if dom.hasStudioTextEl then
    [.dispatchEvent "first element containing Studio",
     .clickEl "first element containing Studio"]
  else []

/-- Effects of the whole script fallback: when the first script throws, the
exception is caught by the outer per-step handler and the second script never
runs. -/
def studioFallbackEffects (dom : StudioDom) : List Effect :=
  match studioJsClickEffects dom with
  | (es, true) => es
  | (es, false) => es ++ studioDispatchEffects dom

/-- DOM effects performed by the full "Start in Studio" resolution: the two
text strategies only query, the script fallback also acts. -/
def resolveStudioEffects (texts : List String) (dom : StudioDom) : List Effect :=
  match resolve_start_in_studio texts with
  | .exact _ => []
  | .contain _ => []
  | .script => studioFallbackEffects dom

/-- Style assignments of the menu-visibility helper (main.py 655-666). -/
def forceMenuVisibilityEffects (menuPresent : Bool) : List Effect :=
  if menuPresent then
    [.styleMutation "menu.display", .styleMutation "menu.opacity",
     .styleMutation "menu.maxHeight", .styleMutation "menu.overflow",
     .styleMutation "menu.pointerEvents"]
  else []

/-- C9 counterexample: on a page whose only text element merely mentions
`Studio` (no exact or short containment match), resolution falls through to
the script fallback, which dispatches a synthetic mouse event and clicks
that element — so the resolution phase is not read-only; the options-menu
helper moreover mutates styles. -/
theorem c9_counterexample :
    resolveStudioEffects
        ["Welcome to the Studio homepage where creations live"]
        ⟨false, false, false, true⟩ =
      [.dispatchEvent "first element containing Studio",
       .clickEl "first element containing Studio"] ∧
    resolveStudioEffects
        ["Welcome to the Studio homepage where creations live"]
        ⟨false, false, false, true⟩ ≠ [] ∧
    forceMenuVisibilityEffects true ≠ [] :=
  ⟨by decide, by decide, by decide⟩

/-- C9 (amended): the exact-text and containment strategies are read-only —
whenever one of them resolves the element, no DOM mutation happens — and any
mutation can come only from the script fallback (which clicks and dispatches
events) or from the separate options-menu visibility helper (which mutates
styles). -/
theorem c9_amended_resolution_effects :
    (∀ (texts : List String) (dom : StudioDom) (t : String),
        resolve_start_in_studio texts = .exact t →
        resolveStudioEffects texts dom = []) ∧
    (∀ (texts : List String) (dom : StudioDom) (t : String),
        resolve_start_in_studio texts = .contain t →
        resolveStudioEffects texts dom = []) ∧
    (∀ (texts : List String) (dom : StudioDom),
        resolveStudioEffects texts dom ≠ [] →
        resolve_start_in_studio texts = .script) ∧
    forceMenuVisibilityEffects false = [] := by
  refine ⟨?_, ?_, ?_, rfl⟩
  · intro texts dom t h
    rw [resolveStudioEffects, h]
  · intro texts dom t h
    rw [resolveStudioEffects, h]
  · intro texts dom h
    rw [resolveStudioEffects] at h
    cases hr : resolve_start_in_studio texts with
    | exact t => rw [hr] at h; exact absurd rfl h
    | contain t => rw [hr] at h; exact absurd rfl h
    | script => rfl

/-- Witness for C9 (amended): a page with an exact-text element resolves via
the exact strategy and performs no DOM mutation. -/
theorem c9_amended_resolution_effects_witness :
    resolveStudioEffects ["Start in Studio"] ⟨true, true, true, true⟩ = [] :=
  c9_amended_resolution_effects.1 ["Start in Studio"] ⟨true, true, true, true⟩
    "Start in Studio" (by decide)

end Vizcom
